import Mathlib

/-!
Verification of the homework status bot (homework.py, exception.py).

The Python source is shallowly embedded: JSON payloads become an inductive
`JsonValue`, Python exceptions become a `PyError` value (with the class
hierarchy of exception.py reflected in `isErrorNotToSend`), fallible
functions return `Except PyError _`, and the mutable state of `main`
(the dicts `prev_report` and `current_report`, each of which only ever
holds the single key `message`) becomes `BotState` with `Option String`
fields.  One iteration of the `while True` loop is `runCycle`; the
external world's behaviour in a cycle (HTTP outcome, whether the Telegram
send succeeds) is a `CycleEnv`.  Observable side effects (log calls,
send attempts, sleeping) are recorded in a list of `Action`s.
-/

namespace HomeworkBot

/-- RETRY_TIME = 600 (homework.py line 30). -/
def RETRY_TIME : Nat := 600

/-- JSON-like values, the shape of payloads decoded from the API response. -/
inductive JsonValue where
  | null
  | bool (b : Bool)
  | num (n : Int)
  | str (s : String)
  | list (xs : List JsonValue)
  | dict (kvs : List (String × JsonValue))

/-- Python `d.get(key)`: first value bound to `key`, if any. -/
def dictGet : List (String × JsonValue) → String → Option JsonValue
  | [], _ => none
  | (k, v) :: rest, key => if k = key then some v else dictGet rest key

/-- Python `key in d`. -/
def dictHasKey (kvs : List (String × JsonValue)) (key : String) : Bool :=
  (dictGet kvs key).isSome

/-- Python truthiness of a JSON value. -/
def jsonTruthy : JsonValue → Bool
  | .null => false
  | .bool b => b
  | .num n => decide (n ≠ 0)
  | .str s => !s.isEmpty
  | .list xs => !xs.isEmpty
  | .dict kvs => !kvs.isEmpty

/-- Python truthiness of the result of `d.get(key)` (absent key gives None). -/
def pyTruthy : Option JsonValue → Bool
  | none => false
  | some v => jsonTruthy v

/-- The exception classes that can occur in a cycle (exception.py plus the
builtin TypeError, KeyError, NameError, ConnectionError, AttributeError). -/
inductive PyKind where
  | typeError
  | keyError
  | nameError
  | emptyResponse
  | sendMessageFailed
  | unexpectedHTTPStatusCodeError
  | connectionError
  | attributeError

deriving instance DecidableEq for PyKind

/-- A raised Python exception: its class and its message argument. -/
structure PyError where
  kind : PyKind
  msg : String

deriving instance DecidableEq for PyError

/-- exception.py: `SendMessageFailed` and `EmptyResponse` are the subclasses
of `ErrorNotToSend`; every other class used here is not an `ErrorNotToSend`. -/
def isErrorNotToSend (e : PyError) : Bool :=
  match e.kind with
  | .sendMessageFailed => true
  | .emptyResponse => true
  | _ => false

/-- Python `type(error).__name__`. -/
def pyKindName : PyKind → String
  | .typeError => "TypeError"
  | .keyError => "KeyError"
  | .nameError => "NameError"
  | .emptyResponse => "EmptyResponse"
  | .sendMessageFailed => "SendMessageFailed"
  | .unexpectedHTTPStatusCodeError => "UnexpectedHTTPStatusCodeError"
  | .connectionError => "ConnectionError"
  | .attributeError => "AttributeError"

/-- Python `f"\x7berror\x7d"` (str of the exception).  For `KeyError` Python
renders the repr of the message argument, which adds quotes; the escaping
repr applies inside the message is elided. -/
def pyErrorStr (e : PyError) : String :=
  match e.kind with
  | .keyError => "\x27" ++ e.msg ++ "\x27"
  | _ => e.msg

/-- homework.py lines 179 and 182: `f"\x7btype(error).__name__\x7d: \x7berror\x7d"`. -/
def errSignature (e : PyError) : String :=
  pyKindName e.kind ++ ": " ++ pyErrorStr e

/-- Python `f"\x7btype(x)\x7d"` for the value of a `.get` call. -/
def pyTypeOfGet : Option JsonValue → String
  | none => "<class \x27NoneType\x27>"
  | some .null => "<class \x27NoneType\x27>"
  | some (.bool _) => "<class \x27bool\x27>"
  | some (.num _) => "<class \x27int\x27>"
  | some (.str _) => "<class \x27str\x27>"
  | some (.list _) => "<class \x27list\x27>"
  | some (.dict _) => "<class \x27dict\x27>"

mutual

/-- Approximate Python repr of a JSON value (used only inside error message
text, where the exact repr formatting is not load-bearing). -/
def jsonRepr : JsonValue → String
  | .null => "None"
  | .bool true => "True"
  | .bool false => "False"
  | .num n => toString n
  | .str s => "\x27" ++ s ++ "\x27"
  | .list xs => "[" ++ jsonReprList xs ++ "]"
  | .dict kvs => "\x7b" ++ jsonReprPairs kvs ++ "\x7d"

def jsonReprList : List JsonValue → String
  | [] => ""
  | [x] => jsonRepr x
  | x :: xs => jsonRepr x ++ ", " ++ jsonReprList xs

def jsonReprPairs : List (String × JsonValue) → String
  | [] => ""
  | [(k, v)] => "\x27" ++ k ++ "\x27: " ++ jsonRepr v
  | (k, v) :: kvs => "\x27" ++ k ++ "\x27: " ++ jsonRepr v ++ ", " ++ jsonReprPairs kvs

end

/-- Python `str()` of the value of a `.get` call, as interpolated into
message templates. -/
def pyStr : Option JsonValue → String
  | none => "None"
  | some .null => "None"
  | some (.bool true) => "True"
  | some (.bool false) => "False"
  | some (.num n) => toString n
  | some (.str s) => s
  | some (.list xs) => jsonRepr (.list xs)
  | some (.dict kvs) => jsonRepr (.dict kvs)

/-- VERDICTS (homework.py lines 34-38). -/
def VERDICTS : List (String × String) :=
  [("approved", "Работа проверена: ревьюеру всё понравилось. Ура!"),
   ("reviewing", "Работа взята на проверку ревьюером."),
   ("rejected", "Работа проверена: у ревьюера есть замечания.")]

/-- Python `status in VERDICTS` for the value of `homework.get("status")`:
true exactly when the value is a string that is a key of VERDICTS. -/
def statusInVerdicts : Option JsonValue → Bool
  | some (.str s) => (VERDICTS.lookup s).isSome
  | _ => false

/-- homework.py line 88: `if "homeworks" or "current_date" not in response:`.
Python parses this as `truthy("homeworks") or ("current_date" not in
response)`; the non-empty string literal is always truthy. -/
def homeworksOrCurrentDateNotInResponse (kvs : List (String × JsonValue)) : Bool :=
  !("homeworks".isEmpty) || !(dictHasKey kvs "current_date")

/-- check_response (homework.py lines 83-107). -/
def checkResponse : JsonValue → Except PyError (List JsonValue)
  | .dict kvs =>
    match dictGet kvs "homeworks" with
    | some (.list hs) =>
      if homeworksOrCurrentDateNotInResponse kvs then
        .ok hs
      else
        .error ⟨.emptyResponse,
          "Ответ не содержит домашних работ." ++
          "Пришло: " ++ jsonRepr (.dict kvs)⟩
    | other =>
      .error ⟨.typeError,
        "От сервера не пришли необходимые данные в формате list." ++
        "Пришел " ++ pyTypeOfGet other⟩
  | v =>
    .error ⟨.typeError,
      "От сервера не пришли необходимые данные в формате dict." ++
      "Пришел " ++ pyTypeOfGet (some v)⟩

/-- Message of the KeyError raised by parse_status (lines 115-118). -/
def missingNameMsg (homework_name : Option JsonValue) : String :=
  "Пришел ответ с отсутствующем именем.\n" ++
  "Имя работы: \"" ++ pyStr homework_name ++ "\""

/-- Message of the NameError raised by parse_status (lines 121-124). -/
def unknownStatusMsg (status : Option JsonValue) : String :=
  "Пришел ответ с неизвестным, отсутствующем статусом работы\n" ++
  "Статус работы: " ++ pyStr status

/-- Whether a JSON-decoded Python value is hashable: every such value is,
except lists and dicts.  `status not in VERDICTS` (homework.py line 120)
hashes `status`, so an unhashable value raises TypeError there before the
membership test can come out false. -/
def pyHashable : Option JsonValue → Bool
  | some (.list _) => false
  | some (.dict _) => false
  | _ => true

/-- parse_status (homework.py lines 110-132).  A non-dict record would make
`homework.get` raise AttributeError in Python, and an unhashable status
value (a JSON array or object) makes the `in` test on line 120 raise
TypeError. -/
def parseStatus : JsonValue → Except PyError String
  | .dict hw =>
    let homework_name := dictGet hw "homework_name"
    let status := dictGet hw "status"
    if !(pyTruthy homework_name) then
      .error ⟨.keyError, missingNameMsg homework_name⟩
    else
      match status with
      | some (.str s) =>
        match VERDICTS.lookup s with
        | some verdict =>
          .ok ("Изменился статус проверки работы \"" ++ pyStr homework_name ++
               "\". " ++ verdict)
        | none => .error ⟨.nameError, unknownStatusMsg status⟩
      | some (.list _) => .error ⟨.typeError, "unhashable type: \x27list\x27"⟩
      | some (.dict _) => .error ⟨.typeError, "unhashable type: \x27dict\x27"⟩
      | _ => .error ⟨.nameError, unknownStatusMsg status⟩
  | v =>
    .error ⟨.attributeError,
      pyTypeOfGet (some v) ++ " object has no attribute \x27get\x27"⟩

/-- The outcome of one `requests.get` call in get_api_answer: an HTTP 200
response with a decoded JSON body, a response with another status code, or a
connection error. -/
inductive FetchOutcome where
  | ok (payload : JsonValue)
  | httpError (statusCode : Nat) (reason : String)
  | connectionFailure (errText : String)

/-- Message of the UnexpectedHTTPStatusCodeError raised by get_api_answer
(lines 71-74).  `HTTPStatus.OK` interpolates as its enum name on the Python
versions this code targets. -/
def httpErrMsg (code : Nat) (reason : String) : String :=
  "Ожидаемый ответ: HTTPStatus.OK. " ++
  "Полученный: " ++ toString code ++ " " ++ reason ++ "\n"

/-- The UnexpectedHTTPStatusCodeError raised by get_api_answer. -/
def httpErr (code : Nat) (reason : String) : PyError :=
  ⟨.unexpectedHTTPStatusCodeError, httpErrMsg code reason⟩

/-- get_api_answer (homework.py lines 53-80), as a function of the fetch
outcome. -/
def getApiAnswer : FetchOutcome → Except PyError JsonValue
  | .ok payload => .ok payload
  | .httpError code reason => .error (httpErr code reason)
  | .connectionFailure errText =>
    .error ⟨.connectionError,
      errText ++ ", переданные переменные:\n" ++
      "\x7burl\x7d\nAuthorization: \x7bheaders[Authorization]:.5\x7d\n" ++
      "\x7bparams\x7d"⟩

/-- The external world's behaviour during one loop iteration: the fetch
outcome, and whether `bot.send_message` succeeds (with the text of the
underlying Telegram error when it does not).  At most one send is attempted
per cycle, so one flag suffices. -/
structure CycleEnv where
  fetch : FetchOutcome
  sendOk : Bool
  sendErrText : String

/-- Observable side effects of a cycle. -/
inductive Action where
  | fetchAttempt
  | sendAttempt (message : String)
  | sendSuccess (message : String)
  | logDebug (message : String)
  | logError (message : String)
  | sleep (seconds : Nat)

deriving instance DecidableEq for Action

/-- The SendMessageFailed raised by send_message (lines 48-50) for an
underlying Telegram error rendering as `errText`. -/
def sendFailErr (errText : String) : PyError :=
  ⟨.sendMessageFailed, "Не удалось отправить сообщение: " ++ errText⟩

/-- send_message (homework.py lines 41-50): on failure of the underlying
Telegram call, raises `SendMessageFailed` with the reformatted message. -/
def sendMessage (env : CycleEnv) (message : String) :
    Except PyError Unit × List Action :=
  if env.sendOk then
    (.ok (), [.sendAttempt message, .sendSuccess message])
  else
    (.error (sendFailErr env.sendErrText), [.sendAttempt message])

/-- The mutable state of `main` across cycles: `prev_report` and
`current_report` are dicts whose only possible key is `message`, so each is
`none` (the empty dict) or `some m` (the dict holding message `m`). -/
structure BotState where
  prevReport : Option String
  currentReport : Option String

deriving instance DecidableEq for BotState

/-- At startup `prev_report = \x7b\x7d` and `current_report = \x7b\x7d`
(homework.py lines 142-143). -/
def initState : BotState := ⟨none, none⟩

/-- The change-detection test of main (lines 169 and 185):
`current_report != prev_report`, where `current_report` is the dict holding
exactly the freshly rendered message. -/
def shouldNotify (prevReport : Option String) (message : String) : Bool :=
  decide (some message ≠ prevReport)

/-- The cache overwrite of main (lines 171-172 and 186-187):
`prev_report.clear(); prev_report = current_report.copy()`. -/
def commit (message : String) : Option String := some message

/-- The `try` block of the loop body (homework.py lines 162-177).  Returns
the exception that escapes the block (if any), the state as mutated so far
(Python mutations survive exception propagation), and the emitted actions.
Note that on the notify path `prev_report` is overwritten BEFORE
`send_message` is called (lines 171-173). -/
def tryBody (env : CycleEnv) (st : BotState) :
    Option PyError × BotState × List Action :=
  match getApiAnswer env.fetch with
  | .error e => (some e, st, [.fetchAttempt])
  | .ok response =>
    match checkResponse response with
    | .error e => (some e, st, [.fetchAttempt])
    | .ok homeworks =>
      match homeworks with
      | [] => (none, st, [.fetchAttempt, .logDebug "Обновлений нет"])
      | homework :: _ =>
        match parseStatus homework with
        | .error e => (some e, st, [.fetchAttempt])
        | .ok message =>
          let st1 : BotState := { st with currentReport := some message }
          if shouldNotify st1.prevReport message then
            let st2 : BotState := { st1 with prevReport := commit message }
            match sendMessage env message with
            | (.ok _, sendActs) =>
              (none, st2,
               [.fetchAttempt, .logDebug "Получен новый статус"] ++ sendActs)
            | (.error e, sendActs) =>
              (some e, st2,
               [.fetchAttempt, .logDebug "Получен новый статус"] ++ sendActs)
          else
            (none, st1, [.fetchAttempt, .logDebug "Обновлений нет"])

/-- The swallow log of main lines 190-194 (note the source has no separator
between the literal and the interpolation). -/
def errorSendFailLog (e2 : PyError) : String :=
  "Попытка отправить сообщение об ошибке не удалась" ++ errSignature e2

/-- One full iteration of `while True` (homework.py lines 161-194): the try
block plus its two handlers.  `except ErrorNotToSend` only logs; `except
Exception` renders the signature, logs it, and runs the error-notification
path, whose own send failure is caught and logged by the inner try (lines
188-194).  The first component is the exception escaping the loop body. -/
def runCycle (env : CycleEnv) (st : BotState) :
    Option PyError × BotState × List Action :=
  match tryBody env st with
  | (none, st1, acts) => (none, st1, acts)
  | (some e, st1, acts) =>
    if isErrorNotToSend e then
      (none, st1, acts ++ [.logError (errSignature e)])
    else
      let message := errSignature e
      let st2 : BotState := { st1 with currentReport := some message }
      let acts2 := acts ++ [.logError message]
      if shouldNotify st2.prevReport message then
        let st3 : BotState := { st2 with prevReport := commit message }
        match sendMessage env message with
        | (.ok _, sendActs) => (none, st3, acts2 ++ sendActs)
        | (.error e2, sendActs) =>
          (none, st3, acts2 ++ sendActs ++ [.logError (errorSendFailLog e2)])
      else
        (none, st2, acts2)

/-- Any finite number of consecutive loop iterations, threading the state. -/
def runCycles : List CycleEnv → BotState → BotState × List Action
  | [], st => (st, [])
  | env :: rest, st =>
    ((runCycles rest (runCycle env st).2.1).1,
     (runCycle env st).2.2 ++ (runCycles rest (runCycle env st).2.1).2)

/-- The observable trace of main (lines 139-194) over a finite prefix of the
infinite loop: after the token check, `time.sleep(RETRY_TIME)` runs ONCE
(line 149) and then the `while True` loop runs with no sleep in its body. -/
def mainTrace (envs : List CycleEnv) : List Action :=
  Action.sleep RETRY_TIME :: (runCycles envs initState).2

/-! Concrete fixtures used by witnesses and counterexamples. -/

/-- The record of end-to-end scenario 1 of the spec. -/
def hw1Record : JsonValue :=
  .dict [("homework_name", .str "hw1"), ("status", .str "reviewing")]

/-- Payload holding exactly `hw1Record`. -/
def payload1 : JsonValue := .dict [("homeworks", .list [hw1Record])]

/-- What parse_status actually renders for `hw1Record`. -/
def goodMsg1 : String :=
  "Изменился статус проверки работы \"hw1\". Работа взята на проверку ревьюером."

/-- A cycle in which the fetch yields `payload1` and the send succeeds. -/
def envGoodOk : CycleEnv := ⟨.ok payload1, true, ""⟩

/-- A cycle in which the fetch yields `payload1` but the send fails. -/
def envGoodSendFail : CycleEnv := ⟨.ok payload1, false, "Chat not found"⟩

/-- A cycle in which the fetch gets HTTP 503 and the send succeeds. -/
def envHttp503 : CycleEnv := ⟨.httpError 503 "Service Unavailable", true, ""⟩

/-- The error signature main renders for the HTTP 503 failure. -/
def errSig503 : String :=
  "UnexpectedHTTPStatusCodeError: Ожидаемый ответ: HTTPStatus.OK. " ++
  "Полученный: 503 Service Unavailable\n"

/-- The error signature main renders when the Telegram send fails with
underlying error text "Chat not found". -/
def sendFailSig1 : String :=
  "SendMessageFailed: Не удалось отправить сообщение: Chat not found"

/-! Theorems. -/

/-- The guard on homework.py line 88 is always true: the string literal
`homeworks` is truthy, so the disjunction short-circuits. -/
theorem homeworksCond_true (kvs : List (String × JsonValue)) :
    homeworksOrCurrentDateNotInResponse kvs = true := by
  have h : "homeworks".isEmpty = false := rfl
  simp [homeworksOrCurrentDateNotInResponse, h]

/-- C10: for every dict payload whose value at the `homeworks` key is a
list, check_response returns that list unchanged (possibly empty), and
check_response never raises EmptyResponse on any input: the
EmptyResponse-raising branch is unreachable because the guard on line 88 is
always true. -/
theorem checkResponse_list_ok_and_emptyResponse_unreachable :
    (∀ (kvs : List (String × JsonValue)) (hs : List JsonValue),
        dictGet kvs "homeworks" = some (.list hs) →
        checkResponse (.dict kvs) = .ok hs) ∧
    (∀ (v : JsonValue) (e : PyError),
        checkResponse v = .error e → e.kind ≠ PyKind.emptyResponse) := by
  constructor
  · intro kvs hs h
    simp [checkResponse, h, homeworksCond_true]
  · intro v e h
    cases v with
    | dict kvs =>
      cases hg : dictGet kvs "homeworks" with
      | none =>
        simp [checkResponse, hg] at h
        subst h
        simp
      | some w =>
        cases w with
        | list hs => simp [checkResponse, hg, homeworksCond_true] at h
        | null => simp [checkResponse, hg] at h; subst h; simp
        | bool b => simp [checkResponse, hg] at h; subst h; simp
        | num n => simp [checkResponse, hg] at h; subst h; simp
        | str s => simp [checkResponse, hg] at h; subst h; simp
        | dict kvs2 => simp [checkResponse, hg] at h; subst h; simp
    | null => simp [checkResponse] at h; subst h; simp
    | bool b => simp [checkResponse] at h; subst h; simp
    | num n => simp [checkResponse] at h; subst h; simp
    | str s => simp [checkResponse] at h; subst h; simp
    | list xs => simp [checkResponse] at h; subst h; simp

/-- Witness for C10 at concrete inputs: a payload with an empty homeworks
list is accepted, and the error produced for a non-dict payload is not an
EmptyResponse. -/
theorem checkResponse_list_ok_and_emptyResponse_unreachable_witness :
    checkResponse (.dict [("homeworks", .list [])]) = .ok [] ∧
    PyError.kind
      ⟨.typeError,
        "От сервера не пришли необходимые данные в формате dict." ++
        "Пришел " ++ "<class \x27int\x27>"⟩ ≠ PyKind.emptyResponse :=
  ⟨checkResponse_list_ok_and_emptyResponse_unreachable.1 _ _ rfl,
   checkResponse_list_ok_and_emptyResponse_unreachable.2 (.num 0) _ rfl⟩

/-- The TypeError message check_response produces when
`response.get("homeworks")` is None (key absent). -/
def typeErrNoneMsg : String :=
  "От сервера не пришли необходимые данные в формате list." ++
  "Пришел " ++ "<class \x27NoneType\x27>"

/-- C2 counterexample: for the dict payload with no `homeworks` key,
check_response raises TypeError, not the quiet EmptyResponse outcome the
claim requires (`.get` returns None, which fails the isinstance-list test
before the EmptyResponse branch can be reached). -/
theorem checkResponse_missing_homeworks_raises_typeError_cex :
    checkResponse (.dict []) = .error ⟨.typeError, typeErrNoneMsg⟩ ∧
    PyKind.typeError ≠ PyKind.emptyResponse :=
  ⟨rfl, by decide⟩

/-- C2 amended: for every dict payload with no `homeworks` key,
check_response raises TypeError (the malformed-response kind, same as for a
non-list value), never EmptyResponse. -/
theorem checkResponse_missing_homeworks_typeError
    (kvs : List (String × JsonValue))
    (h : dictGet kvs "homeworks" = none) :
    checkResponse (.dict kvs) = .error ⟨.typeError, typeErrNoneMsg⟩ := by
  simp [checkResponse, h, typeErrNoneMsg, pyTypeOfGet]

/-- Witness for the amended C2 at a concrete input. -/
theorem checkResponse_missing_homeworks_typeError_witness :
    checkResponse (.dict [("current_date", .num 1)]) =
      .error ⟨.typeError, typeErrNoneMsg⟩ :=
  checkResponse_missing_homeworks_typeError _ rfl

/-- The English template the claim expects for scenario 1. -/
def statusChangedEn : String :=
  "Status changed for \"hw1\". Работа взята на проверку ревьюером."

/-- C7 counterexample: for the record with name `hw1` and status
`reviewing`, parse_status succeeds but returns the Russian template
`Изменился статус проверки работы "hw1". ...`, not the claimed
`Status changed for "hw1". ...` string. -/
theorem parseStatus_message_not_english_cex :
    parseStatus hw1Record = .ok goodMsg1 ∧ goodMsg1 ≠ statusChangedEn :=
  ⟨rfl, by decide⟩

/-- C7 amended: for every record with a non-empty name and a status that is
a key of VERDICTS, parse_status succeeds and returns exactly
`Изменился статус проверки работы "<name>". <verdict-text>`. -/
theorem parseStatus_known_status_renders_template
    (hw : List (String × JsonValue)) (name status verdict : String)
    (hname : dictGet hw "homework_name" = some (.str name))
    (hne : name ≠ "")
    (hstatus : dictGet hw "status" = some (.str status))
    (hv : VERDICTS.lookup status = some verdict) :
    parseStatus (.dict hw) =
      .ok ("Изменился статус проверки работы \"" ++ name ++ "\". " ++ verdict) := by
  have hempty : name.isEmpty = false := by
    cases he : name.isEmpty
    · rfl
    · exact absurd ((String.isEmpty_iff name).mp he) hne
  simp [parseStatus, hname, hstatus, hv, pyTruthy, jsonTruthy, hempty, pyStr]

/-- Witness for the amended C7: the spec's scenario-1 record. -/
theorem parseStatus_known_status_renders_template_witness :
    parseStatus hw1Record =
      .ok ("Изменился статус проверки работы \"" ++ "hw1" ++ "\". " ++
           "Работа взята на проверку ревьюером.") :=
  parseStatus_known_status_renders_template
    [("homework_name", .str "hw1"), ("status", .str "reviewing")]
    "hw1" "reviewing" "Работа взята на проверку ревьюером."
    rfl (by decide) rfl rfl

/-- C8 counterexample: the record `\x7b"status": "bogus"\x7d` has a status
that is not a key of VERDICTS, yet parse_status fails with KeyError (the
missing-name kind, raised first on line 119), not with the UnknownStatus
kind (NameError). -/
theorem parseStatus_unknown_status_keyError_first_cex :
    parseStatus (.dict [("status", .str "bogus")]) =
      .error ⟨.keyError, missingNameMsg none⟩ ∧
    PyKind.keyError ≠ PyKind.nameError :=
  ⟨rfl, by decide⟩

/-- C8 amended: for every record whose name field is truthy and whose
status field is absent or a hashable value that is not a key of VERDICTS,
parse_status fails with NameError (the UnknownStatus kind) and with no
other failure kind.  (A falsy name fails first with KeyError, and an
unhashable status — a JSON array or object — raises TypeError at the `in`
test instead.) -/
theorem parseStatus_unknown_status_nameError
    (hw : List (String × JsonValue))
    (hname : pyTruthy (dictGet hw "homework_name") = true)
    (hhash : pyHashable (dictGet hw "status") = true)
    (hstatus : statusInVerdicts (dictGet hw "status") = false) :
    parseStatus (.dict hw) =
      .error ⟨.nameError, unknownStatusMsg (dictGet hw "status")⟩ := by
  cases hs : dictGet hw "status" with
  | none => simp [parseStatus, hname, hs]
  | some w =>
    cases w with
    | str s =>
      cases hl : VERDICTS.lookup s with
      | none => simp [parseStatus, hname, hs, hl]
      | some verdict =>
        rw [hs] at hstatus
        simp [statusInVerdicts, hl] at hstatus
    | null => simp [parseStatus, hname, hs]
    | bool b => simp [parseStatus, hname, hs]
    | num n => simp [parseStatus, hname, hs]
    | list xs =>
      rw [hs] at hhash
      simp [pyHashable] at hhash
    | dict kvs2 =>
      rw [hs] at hhash
      simp [pyHashable] at hhash

/-- Witness for the amended C8: the spec's scenario-5 record. -/
theorem parseStatus_unknown_status_nameError_witness :
    parseStatus (.dict [("homework_name", .str "hw1"), ("status", .str "bogus")]) =
      .error ⟨.nameError,
        unknownStatusMsg (dictGet [("homework_name", JsonValue.str "hw1"),
                                   ("status", JsonValue.str "bogus")] "status")⟩ :=
  parseStatus_unknown_status_nameError _ rfl rfl rfl

/-- C9: the dedup law of the change tracker inlined in main.  In the code a
Report is the single-key dict holding the rendered message (the subject is
not stored separately, the name being embedded in the message), so same
subject and message means equal messages.  After commit, the same message is
not notified again; a different message is; and the very first report is
notified because the cache starts as the empty dict. -/
theorem shouldNotify_commit_dedup_law (m m2 : String) (h : m2 ≠ m) :
    shouldNotify (commit m) m = false ∧
    shouldNotify (commit m) m2 = true ∧
    shouldNotify initState.prevReport m2 = true := by
  refine ⟨?_, ?_, ?_⟩ <;> simp [shouldNotify, commit, initState, h]

/-- Witness for C9 at concrete messages. -/
theorem shouldNotify_commit_dedup_law_witness :
    shouldNotify (commit "a") "a" = false ∧
    shouldNotify (commit "a") "b" = true ∧
    shouldNotify initState.prevReport "b" = true :=
  shouldNotify_commit_dedup_law "a" "b" (by decide)

/-- An UnexpectedHTTPStatusCodeError is not an ErrorNotToSend. -/
theorem isErrorNotToSend_httpErr (code : Nat) (reason : String) :
    isErrorNotToSend (httpErr code reason) = false := rfl

/-- C5: on the error path (here: a fetch that got a non-OK HTTP status,
routed to the `except Exception` handler), when delivering the error
notification itself fails, the delivery failure is logged by the inner
try/except and swallowed: no exception escapes the loop body (first
component `none`), so the next cycle begins normally. -/
theorem error_delivery_failure_swallowed
    (st : BotState) (code : Nat) (reason errText : String)
    (h : shouldNotify st.prevReport (errSignature (httpErr code reason)) = true) :
    (runCycle ⟨.httpError code reason, false, errText⟩ st).1 = none ∧
    Action.logError (errorSendFailLog (sendFailErr errText)) ∈
      (runCycle ⟨.httpError code reason, false, errText⟩ st).2.2 := by
  constructor <;>
    simp [runCycle, tryBody, getApiAnswer, isErrorNotToSend_httpErr, h,
          sendMessage]

/-- Witness for C5: HTTP 503 with a failing Telegram send, from the initial
state. -/
theorem error_delivery_failure_swallowed_witness :
    (runCycle ⟨.httpError 503 "Service Unavailable", false, "Chat not found"⟩
        initState).1 = none ∧
    Action.logError (errorSendFailLog (sendFailErr "Chat not found")) ∈
      (runCycle ⟨.httpError 503 "Service Unavailable", false, "Chat not found"⟩
        initState).2.2 :=
  error_delivery_failure_swallowed initState 503 "Service Unavailable"
    "Chat not found" (by decide)

/-- C6 counterexample: when sending a normal status notification fails, the
resulting SendMessageFailed is merely logged by the `except ErrorNotToSend`
handler; its signature is never handed to the notification channel (no send
attempt carries it). -/
theorem sendMessageFailed_not_notified_cex :
    Action.logError sendFailSig1 ∈ (runCycle envGoodSendFail initState).2.2 ∧
    Action.sendAttempt sendFailSig1 ∉ (runCycle envGoodSendFail initState).2.2 := by
  decide

/-- C6 amended: a SendMessageFailed raised while sending a normal status
notification is an ErrorNotToSend, so (like every ErrorNotToSend escaping
the try block) the handler only appends one error-log entry: the state is
left as the try block left it, nothing further is sent, and the error never
reaches the ErrorDeduper path. -/
theorem errorNotToSend_only_logged
    (env : CycleEnv) (st st1 : BotState) (e : PyError) (acts : List Action)
    (h : tryBody env st = (some e, st1, acts))
    (hk : isErrorNotToSend e = true) :
    runCycle env st = (none, st1, acts ++ [.logError (errSignature e)]) := by
  unfold runCycle
  rw [h]
  simp [hk]

/-- Witness for the amended C6: the send of `goodMsg1` fails, and the cycle
ends with the SendMessageFailed signature logged only. -/
theorem errorNotToSend_only_logged_witness :
    runCycle envGoodSendFail initState =
      (none, ⟨some goodMsg1, some goodMsg1⟩,
       [.fetchAttempt, .logDebug "Получен новый статус", .sendAttempt goodMsg1] ++
       [.logError (errSignature (sendFailErr "Chat not found"))]) :=
  errorNotToSend_only_logged envGoodSendFail initState
    ⟨some goodMsg1, some goodMsg1⟩ (sendFailErr "Chat not found")
    [.fetchAttempt, .logDebug "Получен новый статус", .sendAttempt goodMsg1]
    rfl rfl

/-- C3 counterexample: after a good report is notified and committed
(cycle 1), an HTTP-failure cycle commits its error signature into the very
same `prev_report` cache (cycle 2), overwriting the last-notified good
Report — there is no separate LastErrorSignature cache in the code. -/
theorem error_commit_overwrites_good_report_cex :
    (runCycle envGoodOk initState).2.1.prevReport = some goodMsg1 ∧
    (runCycle envHttp503 (runCycle envGoodOk initState).2.1).2.1.prevReport =
      some errSig503 ∧
    errSig503 ≠ goodMsg1 :=
  ⟨rfl, rfl, by decide⟩

/-- C3 amended: the code keeps a single deduplication cache: `prev_report`
is shared by status reports and error signatures, and a committed error
signature is written into the same `prevReport` field that good reports
use (so it overwrites whatever report was last notified). -/
theorem error_commit_writes_shared_prevReport
    (st : BotState) (code : Nat) (reason errText : String)
    (h : shouldNotify st.prevReport (errSignature (httpErr code reason)) = true) :
    (runCycle ⟨.httpError code reason, true, errText⟩ st).2.1.prevReport =
      some (errSignature (httpErr code reason)) := by
  simp [runCycle, tryBody, getApiAnswer, isErrorNotToSend_httpErr, h,
        sendMessage, commit]

/-- Witness for the amended C3: the HTTP 503 signature lands in
`prevReport`, replacing the good report committed there. -/
theorem error_commit_writes_shared_prevReport_witness :
    (runCycle ⟨.httpError 503 "Service Unavailable", true, ""⟩
        ⟨some goodMsg1, some goodMsg1⟩).2.1.prevReport =
      some (errSignature (httpErr 503 "Service Unavailable")) :=
  error_commit_writes_shared_prevReport ⟨some goodMsg1, some goodMsg1⟩
    503 "Service Unavailable" "" (by decide)

/-- Inside the try block, `prev_report` is either untouched or set to the
message of a send that is attempted in the same cycle (the overwrite on
lines 171-172 happens just before the `send_message` call on line 173). -/
theorem tryBody_prevReport_send (env : CycleEnv) (st : BotState) :
    (tryBody env st).2.1.prevReport = st.prevReport ∨
    ∃ m, (tryBody env st).2.1.prevReport = some m ∧
         Action.sendAttempt m ∈ (tryBody env st).2.2 := by
  cases hga : getApiAnswer env.fetch with
  | error e => simp [tryBody, hga]
  | ok response =>
    cases hcr : checkResponse response with
    | error e => simp [tryBody, hga, hcr]
    | ok homeworks =>
      cases homeworks with
      | nil => simp [tryBody, hga, hcr]
      | cons hw rest =>
        cases hps : parseStatus hw with
        | error e => simp [tryBody, hga, hcr, hps]
        | ok message =>
          cases hsn : shouldNotify st.prevReport message with
          | false => simp [tryBody, hga, hcr, hps, hsn]
          | true =>
            right
            refine ⟨message, ?_, ?_⟩ <;>
              cases hso : env.sendOk <;>
                simp [tryBody, hga, hcr, hps, hsn, sendMessage, hso, commit]

/-- C1 amended: in every cycle, `prev_report` is either left unchanged or
overwritten with a message for which a send is attempted in that same
cycle; but the overwrite happens immediately BEFORE the send attempt, so
when send_message fails the cache keeps the new value rather than being
rolled back. -/
theorem prevReport_update_only_with_send_attempt (env : CycleEnv) (st : BotState) :
    (runCycle env st).2.1.prevReport = st.prevReport ∨
    ∃ m, (runCycle env st).2.1.prevReport = some m ∧
         Action.sendAttempt m ∈ (runCycle env st).2.2 := by
  have htb := tryBody_prevReport_send env st
  rcases hres : tryBody env st with ⟨oe, st1, acts⟩
  rw [hres] at htb
  cases oe with
  | none => simpa [runCycle, hres] using htb
  | some e =>
    cases hk : isErrorNotToSend e with
    | true =>
      rcases htb with h1 | ⟨m, h2, h3⟩
      · left
        simpa [runCycle, hres, hk] using h1
      · right
        refine ⟨m, ?_, ?_⟩
        · simpa [runCycle, hres, hk] using h2
        · simp [runCycle, hres, hk, List.mem_append]
          exact h3
    | false =>
      cases hsn : shouldNotify st1.prevReport (errSignature e) with
      | true =>
        right
        refine ⟨errSignature e, ?_, ?_⟩ <;>
          cases hso : env.sendOk <;>
            simp [runCycle, hres, hk, hsn, sendMessage, hso, commit]
      | false =>
        rcases htb with h1 | ⟨m, h2, h3⟩
        · left
          simpa [runCycle, hres, hk, hsn] using h1
        · right
          refine ⟨m, ?_, ?_⟩
          · simpa [runCycle, hres, hk, hsn] using h2
          · simp [runCycle, hres, hk, hsn, List.mem_append]
            exact h3

/-- C1 counterexample: in a cycle where a newly parsed report's send fails,
`prev_report` has nevertheless been overwritten with the new message (the
send was attempted but never completed), contradicting state-unchanged-on-
error. -/
theorem prevReport_updated_despite_send_failure_cex :
    (runCycle envGoodSendFail initState).2.1.prevReport = some goodMsg1 ∧
    Action.sendAttempt goodMsg1 ∈ (runCycle envGoodSendFail initState).2.2 ∧
    Action.sendSuccess goodMsg1 ∉ (runCycle envGoodSendFail initState).2.2 := by
  refine ⟨rfl, ?_, ?_⟩ <;> decide

/-- No action emitted inside the try block is a sleep. -/
theorem sleep_not_in_tryBody (env : CycleEnv) (st : BotState) (s : Nat) :
    Action.sleep s ∉ (tryBody env st).2.2 := by
  cases hga : getApiAnswer env.fetch with
  | error e => simp [tryBody, hga]
  | ok response =>
    cases hcr : checkResponse response with
    | error e => simp [tryBody, hga, hcr]
    | ok homeworks =>
      cases homeworks with
      | nil => simp [tryBody, hga, hcr]
      | cons hw rest =>
        cases hps : parseStatus hw with
        | error e => simp [tryBody, hga, hcr, hps]
        | ok message =>
          cases hsn : shouldNotify st.prevReport message with
          | false => simp [tryBody, hga, hcr, hps, hsn]
          | true =>
            cases hso : env.sendOk <;>
              simp [tryBody, hga, hcr, hps, hsn, sendMessage, hso]

/-- No action emitted by a full loop iteration is a sleep. -/
theorem sleep_not_in_runCycle (env : CycleEnv) (st : BotState) (s : Nat) :
    Action.sleep s ∉ (runCycle env st).2.2 := by
  have htb := sleep_not_in_tryBody env st s
  rcases hres : tryBody env st with ⟨oe, st1, acts⟩
  rw [hres] at htb
  cases oe with
  | none => simpa [runCycle, hres] using htb
  | some e =>
    cases hk : isErrorNotToSend e with
    | true =>
      simp [runCycle, hres, hk, List.mem_append]
      exact htb
    | false =>
      cases hsn : shouldNotify st1.prevReport (errSignature e) with
      | true =>
        cases hso : env.sendOk <;>
          · simp [runCycle, hres, hk, hsn, sendMessage, hso, List.mem_append]
            exact htb
      | false =>
        simp [runCycle, hres, hk, hsn, List.mem_append]
        exact htb

/-- No sleep occurs anywhere in any run of the loop. -/
theorem sleep_not_in_runCycles (envs : List CycleEnv) (st : BotState) (s : Nat) :
    Action.sleep s ∉ (runCycles envs st).2 := by
  induction envs generalizing st with
  | nil => simp [runCycles]
  | cons env rest ih =>
    intro h
    simp only [runCycles] at h
    rcases List.mem_append.mp h with h1 | h2
    · exact sleep_not_in_runCycle env st s h1
    · exact ih _ h2

/-- C4: the loop body contains no wait at all.  Sleeping happens exactly
once in main — `time.sleep(RETRY_TIME)` on line 149, BEFORE entering
`while True` — so cycles run back-to-back with no interval between one
cycle's end and the next fetch, contrary to the claimed
sleep-at-the-end-of-every-cycle behaviour. -/
theorem scheduler_loop_has_no_per_cycle_sleep
    (envs : List CycleEnv) (st : BotState) (s : Nat) :
    ((runCycles envs st).2).count (Action.sleep s) = 0 ∧
    (mainTrace envs).count (Action.sleep RETRY_TIME) = 1 := by
  constructor
  · exact List.count_eq_zero.mpr (sleep_not_in_runCycles envs st s)
  · have h0 : ((runCycles envs initState).2).count (Action.sleep RETRY_TIME) = 0 :=
      List.count_eq_zero.mpr (sleep_not_in_runCycles envs initState RETRY_TIME)
    simp [mainTrace, List.count_cons_self, h0]

end HomeworkBot
